import Mathlib

/-!
Verification development for the `git-evolve` analyzer
(`git_evolve/analyzer.py`): a shallow embedding of its data model and
operations, followed by theorems about the claims of the specification.

Modelling conventions:
* External effects (the `git` subprocess calls of `run_git_command`,
  `is_binary_file`, and the process pool) are supplied by an explicit
  environment `GitEnv`; each call site reads the corresponding outcome.
* Python exceptions are modelled by `Except PyExc`; the exception class
  hierarchy (`InvalidCommitError` and `NotAGitRepositoryError` are
  subclasses of `GitCommandError`) is reflected in `PyExc.isGitCommandError`.
* Python `float` percentages are idealised as rationals; `round(x, 2)` is
  modelled by `pyRound2` (round half to even at two decimals).
* Python string operations used by the source are modelled by the
  `py*` helpers below, each faithful to the CPython semantics actually
  exercised by the program (newline-separated git output).
-/

namespace GitEvolve

/-- Model of Python `sub in s` (substring containment). -/
def pyIn (sub s : String) : Bool :=
  s.data.tails.any (fun t => sub.data.isPrefixOf t)

/-- Model of Python `s.startswith(pre)`. (Defined on the character list
so that it computes by structural recursion.) -/
def pyStartsWith (s pre : String) : Bool :=
  pre.data.isPrefixOf s.data

/-- Model of Python slicing `s[:n]` (by characters, as Python does). -/
def pyTake (s : String) (n : Nat) : String :=
  ⟨s.data.take n⟩

/-- Model of Python `s.strip()`: remove leading and trailing whitespace. -/
def pyStrip (s : String) : String :=
  ⟨((s.data.dropWhile Char.isWhitespace).reverse.dropWhile Char.isWhitespace).reverse⟩

/-- Model of Python `s.lower()` for the ASCII text git produces. -/
def pyToLower (s : String) : String :=
  ⟨s.data.map Char.toLower⟩

/-- Model of Python `s.split()` with no separator: split on whitespace,
discarding empty tokens (so maximal whitespace runs act as one separator). -/
def pySplitWs (s : String) : List String :=
  ((s.data.splitOnP Char.isWhitespace).map (fun l => (⟨l⟩ : String))).filter
    (fun t => t ≠ "")

/-- Model of Python `s.split(sep)` for a one-character separator (empty
pieces kept). -/
def pySplitChar (s : String) (c : Char) : List String :=
  (s.data.splitOn c).map (fun l => (⟨l⟩ : String))

/-- Model of Python `s.splitlines()` for `\n`-separated text (the only
line terminator occurring in captured git output): split on `\n` and
drop the trailing empty piece produced by a terminal newline. -/
def pySplitlines (s : String) : List String :=
  let parts := pySplitChar s '\n'
  if parts.getLast? = some "" then parts.dropLast else parts

/-- Model of Python `os.path.basename`: the part after the last `/`. -/
def pyBasename (s : String) : String :=
  (pySplitChar s '/').getLastD ""

/-- Round a rational to an integer, half to even, as Python `round` does. -/
def pyRoundHalfEven (q : ℚ) : ℤ :=
  if Int.fract q = 1/2 then (if ⌊q⌋ % 2 = 0 then ⌊q⌋ else ⌊q⌋ + 1) else round q

/-- Model of Python `round(x, 2)`. -/
def pyRound2 (q : ℚ) : ℚ :=
  (pyRoundHalfEven (q * 100) : ℚ) / 100

/-- Outcome of one external subprocess invocation, as seen by the caller:
captured stdout on success, or the exception the call raises.
`calledProcessError` carries the captured stderr and the `str()` rendering
of the exception object; `fileNotFound` models `FileNotFoundError` (git not
installed); `otherError` models any other exception escaping the call
(e.g. a `UnicodeDecodeError` while decoding output). -/
inductive GitOutcome where
  | ok (stdout : String)
  | calledProcessError (stderr : String) (excStr : String)
  | fileNotFound
  | otherError (msg : String)
deriving Repr, DecidableEq

/-- The Python exception classes thrown by the analyzer module.
`invalidCommitError` and `notAGitRepositoryError` subclass
`gitCommandError`; `otherError` models any unrelated exception. -/
inductive PyExc where
  | gitCommandError (msg : String)
  | invalidCommitError (msg : String)
  | notAGitRepositoryError (msg : String)
  | otherError (msg : String)
deriving Repr, DecidableEq

deriving instance DecidableEq for Except

/-- Dynamic class test `isinstance(e, GitCommandError)`, including subclasses. -/
def PyExc.isGitCommandError : PyExc → Bool
  | .gitCommandError _ => true
  | .invalidCommitError _ => true
  | .notAGitRepositoryError _ => true
  | .otherError _ => false

/-- Python `str(e)` for the modelled exceptions (their message). -/
def PyExc.message : PyExc → String
  | .gitCommandError m => m
  | .invalidCommitError m => m
  | .notAGitRepositoryError m => m
  | .otherError m => m

/-- `run_git_command`: wrap a subprocess outcome, turning
`CalledProcessError` and `FileNotFoundError` into `GitCommandError` with
the messages built by the source; any other exception propagates.
`cmdStr` is `' '.join(cmd)`. -/
def run_git_command (cmdStr : String) (outcome : GitOutcome) : Except PyExc String :=
  match outcome with
  | .ok stdout => .ok stdout
  | .calledProcessError stderr excStr =>
      .error (.gitCommandError
        ("Git command failed: " ++ cmdStr ++ "\n"
          ++ (if stderr ≠ "" then pyStrip stderr else excStr)))
  | .fileNotFound => .error (.gitCommandError "Git is not installed or not found in PATH")
  | .otherError m => .error (.otherError m)

/-- The external world of one `analyze` run: the outcome of every git
invocation the module can make, the `fnmatch.fnmatch` oracle, and the
completion order in which the process pool yields per-file futures. -/
structure GitEnv where
  showToplevel : GitOutcome
  revParse : String → GitOutcome
  lsFiles : GitOutcome
  checkAttr : String → GitOutcome
  blame : String → GitOutcome
  gitLog : GitOutcome
  fnmatch : String → String → Bool
  completionOrder : List String → List String

/-- `get_repository_root`: `git rev-parse --show-toplevel`, stripped;
a `GitCommandError` whose lower-cased message contains
"not a git repository" is re-raised as `NotAGitRepositoryError`. -/
def get_repository_root (env : GitEnv) : Except PyExc String :=
  match run_git_command "git rev-parse --show-toplevel" env.showToplevel with
  | .ok out => .ok (pyStrip out)
  | .error e =>
      if e.isGitCommandError then
        if pyIn "not a git repository" (pyToLower e.message) then
          .error (.notAGitRepositoryError
            ("Current directory is not a git repository. "
              ++ "Please run this command from within a git repository."))
        else .error e
      else .error e

/-- `resolve_commit`: `git rev-parse <ref>` stripped; a result whose
length is not 40 raises `InvalidCommitError` — which, being a
`GitCommandError` subclass, is caught by the function's own handler and
replaced by the "Invalid commit reference" message, as is any backend
`GitCommandError`. -/
def resolve_commit (base_commit : String) (env : GitEnv) : Except PyExc String :=
  let attempt : Except PyExc String :=
    match run_git_command ("git rev-parse " ++ base_commit) (env.revParse base_commit) with
    | .ok out =>
        if (pyStrip out).length ≠ 40 then
          .error (.invalidCommitError ("Could not resolve commit: " ++ base_commit))
        else .ok (pyStrip out)
    | .error e => .error e
  match attempt with
  | .ok r => .ok r
  | .error e =>
      if e.isGitCommandError then
        .error (.invalidCommitError ("Invalid commit reference: " ++ base_commit))
      else .error e

/-- The pure filtering step of `get_tracked_files`: split the `ls-files`
output into lines, drop blank lines, and — when a non-empty pattern list
is supplied (Python truthiness: `None` and `[]` both skip filtering) —
drop every path matching any pattern against the full path or its
basename. -/
def filterTracked (out : String) (exclude_patterns : Option (List String))
    (fnmatchFn : String → String → Bool) : List String :=
  let files := (pySplitlines out).filter (fun f => pyStrip f ≠ "")
  match exclude_patterns with
  | none => files
  | some [] => files
  | some pats =>
      files.filter (fun f =>
        ¬ pats.any (fun p => fnmatchFn f p || fnmatchFn (pyBasename f) p))

/-- `get_tracked_files`: `git ls-files` output filtered by `filterTracked`. -/
def get_tracked_files (env : GitEnv) (exclude_patterns : Option (List String)) :
    Except PyExc (List String) :=
  match run_git_command "git ls-files" env.lsFiles with
  | .ok out => .ok (filterTracked out exclude_patterns env.fnmatch)
  | .error e => .error e

/-- `is_binary_file`: `git check-attr binary -- <file>` without
`check=True`, so a non-zero exit still yields captured stdout; the
source's `except CalledProcessError: return False` handler is mirrored;
other exceptions (`FileNotFoundError`, decode errors) propagate. -/
def is_binary_file (file_path : String) (env : GitEnv) : Except PyExc Bool :=
  match env.checkAttr file_path with
  | .ok stdout => .ok (pyIn "binary" stdout && pyIn "set" stdout)
  | .calledProcessError _ _ => .ok false
  | .fileNotFound => .error (.otherError "FileNotFoundError")
  | .otherError m => .error (.otherError m)

/-- One step of the line-classification loop of
`analyze_file_blame_optimized` (source lines 236–258), on one line of the
blame dump. The accumulator is `(total_lines, base_lines)`. A line
starting with a tab increments `total_lines` only; a line starting with a
space, and likewise any remaining line, has its first whitespace-separated
token inspected: when that token has length ≥ 7 it is treated as a commit
hash, `base_lines` is incremented when it starts with the 7-character base
commit prefix, and `total_lines` is incremented as well. -/
def blameStep (prefix7 : String) (acc : Nat × Nat) (line : String) : Nat × Nat :=
  if pyStartsWith line "\t" then
    (acc.1 + 1, acc.2)
  else if pyStartsWith line " " then
    match pySplitWs line with
    | [] => acc
    | tok :: _ =>
        if tok.length ≥ 7 then
          (acc.1 + 1, if pyStartsWith tok prefix7 then acc.2 + 1 else acc.2)
        else acc
  else
    match pySplitWs line with
    | [] => acc
    | tok :: _ =>
        if tok.length ≥ 7 then
          (acc.1 + 1, if pyStartsWith tok prefix7 then acc.2 + 1 else acc.2)
        else acc

/-- The whole classification loop over the lines of a blame dump. -/
def blameCounts (prefix7 : String) (lines : List String) : Nat × Nat :=
  lines.foldl (blameStep prefix7) (0, 0)

/-- `analyze_file_blame_optimized`: skip binary files, run
`git blame -w --porcelain -- <file>`, and classify its lines; every
failure (binary flag, `GitCommandError`, any other exception) degrades to
`(file_path, 0, 0)`. -/
def analyze_file_blame_optimized (file_path base_commit : String) (env : GitEnv) :
    String × Nat × Nat :=
  match is_binary_file file_path env with
  | .error _ => (file_path, 0, 0)
  | .ok true => (file_path, 0, 0)
  | .ok false =>
      match run_git_command ("git blame -w --porcelain -- " ++ file_path)
          (env.blame file_path) with
      | .error _ => (file_path, 0, 0)
      | .ok output =>
          if pyStrip output = "" then (file_path, 0, 0)
          else
            let counts := blameCounts (pyTake base_commit 7) (pySplitlines output)
            (file_path, counts.1, counts.2)

/-- `analyze_parallel`: each file is an independent task computing
`analyze_file_blame_optimized`; results are appended in the order the
pool completes the futures, which `GitEnv.completionOrder` supplies.
(`max_workers` bounds pool size and `show_progress` only prints, so
neither affects the result value.) -/
def analyze_parallel (files : List String) (base_commit : String) (env : GitEnv) :
    List (String × Nat × Nat) :=
  (env.completionOrder files).map (fun f => analyze_file_blame_optimized f base_commit env)

/-- One entry of the optional per-file breakdown (source lines 409–414). -/
structure FileStat where
  file : String
  total_lines : Nat
  evolved_lines : ℤ
  evolution_percent : ℚ
deriving Repr, DecidableEq

/-- One entry of the optional commit timeline. -/
structure TimelineEntry where
  hash : String
  date : String
  message : String
deriving Repr, DecidableEq

/-- The `AnalysisResult` dictionary returned by `analyze`. -/
structure AnalysisResult where
  base_commit : String
  total_lines : Nat
  base_lines_surviving : Nat
  manual_or_modified_lines : ℤ
  evolution_percent : ℚ
  survival_percent : ℚ
  files_analyzed : Nat
  repository : String
  file_breakdown : Option (List FileStat)
  timeline : Option (List TimelineEntry)
  error : Option String
deriving Repr, DecidableEq

/-- The breakdown entry built for a per-file result with positive
`total_lines` (source lines 408–414). -/
def fileStatOf (r : String × Nat × Nat) : FileStat :=
  { file := r.1
    total_lines := r.2.1
    evolved_lines := (r.2.1 : ℤ) - (r.2.2 : ℤ)
    evolution_percent := pyRound2 ((((r.2.1 : ℚ) - (r.2.2 : ℚ)) / (r.2.1 : ℚ)) * 100) }

/-- The ranked per-file breakdown (source lines 404–416): keep files with
positive totals in input order, attach their stats, sort stably descending
by `evolution_percent` (Python `list.sort(key=..., reverse=True)`), and
keep the first 20. -/
def fileBreakdownOf (results : List (String × Nat × Nat)) : List FileStat :=
  (List.insertionSort (fun a b => b.evolution_percent ≤ a.evolution_percent)
    ((results.filter (fun r => 0 < r.2.1)).map fileStatOf)).take 20

/-- The reduction of per-file results into the report (source lines
385–416), plus the already-computed timeline data. `numFiles` is
`len(files)`, the count of enumerated tracked files. -/
def build_result (results : List (String × Nat × Nat)) (base_full repoName : String)
    (numFiles : Nat) (file_breakdown : Bool)
    (timelineData : Option (List TimelineEntry)) : AnalysisResult :=
  let total_lines : ℕ := (results.map (fun r => r.2.1)).sum
  let base_lines : ℕ := (results.map (fun r => r.2.2)).sum
  let manual_lines : ℤ := (total_lines : ℤ) - (base_lines : ℤ)
  let evolution_percent : ℚ :=
    if 0 < total_lines then pyRound2 (((manual_lines : ℚ) / (total_lines : ℚ)) * 100) else 0
  { base_commit := base_full
    total_lines := total_lines
    base_lines_surviving := base_lines
    manual_or_modified_lines := manual_lines
    evolution_percent := evolution_percent
    survival_percent := pyRound2 (100 - evolution_percent)
    files_analyzed := numFiles
    repository := repoName
    file_breakdown := if file_breakdown then some (fileBreakdownOf results) else none
    timeline := timelineData
    error := none }

/-- `get_commit_timeline`: parse `git log base..HEAD --format=%H|%ai|%s`
lines having at least two `|` separators (Python `line.split("|", 2)`
with `len(parts) == 3`); a `GitCommandError` degrades to an empty
timeline, any other exception propagates. -/
def get_commit_timeline (env : GitEnv) (base_full : String) :
    Except PyExc (List TimelineEntry) :=
  match run_git_command
      ("git log " ++ base_full ++ "..HEAD --format=%H|%ai|%s -n 20") env.gitLog with
  | .ok out =>
      .ok ((pySplitlines out).filterMap (fun line =>
        match pySplitChar line '|' with
        | h :: d :: rest =>
            if rest = [] then none
            else some { hash := h, date := d, message := "|".intercalate rest }
        | _ => none))
  | .error e => if e.isGitCommandError then .ok [] else .error e

/-- The scheduling decision of `analyze` (source lines 375–383): the
parallel path exactly when `parallel` is set and more than 10 files were
enumerated, the sequential comprehension otherwise. -/
def scheduledResults (files : List String) (base_full : String) (env : GitEnv)
    (parallel : Bool) : List (String × Nat × Nat) :=
  if parallel && decide (10 < files.length) then
    analyze_parallel files base_full env
  else
    files.map (fun f => analyze_file_blame_optimized f base_full env)

/-- The all-default report used by the `except` handlers of `analyze`
and (with `repository` overridden) by the no-tracked-files branch. -/
def error_result (msg : String) : AnalysisResult :=
  { base_commit := ""
    total_lines := 0
    base_lines_surviving := 0
    manual_or_modified_lines := 0
    evolution_percent := 0
    survival_percent := 0
    files_analyzed := 0
    repository := ""
    file_breakdown := none
    timeline := none
    error := some msg }

/-- The body of `analyze` up to its exception handlers: resolve the
repository root and base commit, enumerate tracked files, short-circuit
when none remain, otherwise schedule per-file attribution and build the
report (with the timeline when requested). -/
def analyzeCore (base_commit : String) (file_breakdown timeline parallel : Bool)
    (exclude_patterns : Option (List String)) (env : GitEnv) :
    Except PyExc AnalysisResult :=
  match get_repository_root env with
  | .error e => .error e
  | .ok repo_root =>
    match resolve_commit base_commit env with
    | .error e => .error e
    | .ok base_full =>
      match get_tracked_files env exclude_patterns with
      | .error e => .error e
      | .ok files =>
        if files = [] then
          .ok { error_result "No tracked files found" with repository := pyBasename repo_root }
        else
          let results := scheduledResults files base_full env parallel
          match (if timeline then
                  match get_commit_timeline env base_full with
                  | .ok t => .ok (some t)
                  | .error e => .error e
                else .ok none : Except PyExc (Option (List TimelineEntry))) with
          | .error e => .error e
          | .ok timelineData =>
              .ok (build_result results base_full (pyBasename repo_root) files.length
                file_breakdown timelineData)

/-- Following the spec's words, for comparison with the code's check: a
revision identifier consisting of exactly 40 hexadecimal characters. -/
def specIsHex40 (s : String) : Bool :=
  (s.length == 40) &&
    s.data.all (fun c => c.isDigit || ('a' ≤ c && c ≤ 'f') || ('A' ≤ c && c ≤ 'F'))

/-- A fully successful environment, used to instantiate theorems at
concrete inputs. -/
def baseEnv : GitEnv :=
  { showToplevel := .ok "/repo\n"
    revParse := fun _ => .ok "aaaaaaaaaaaaaaaaaaaaaaaaaaaaaaaaaaaaaaaa\n"
    lsFiles := .ok "a.py\nb.py\n"
    checkAttr := fun _ => .ok "a.py: binary: unspecified\n"
    blame := fun _ => .ok "aaaaaaaaaaaaaaaaaaaaaaaaaaaaaaaaaaaaaaaa 1 1 1\n\tline one\n"
    gitLog := .ok ""
    fnmatch := fun _ _ => false
    completionOrder := fun l => l }

/-- The porcelain dump of the repository's own unit test
(`tests/test_analyzer.py`, `test_analyzes_porcelain_format`): three header
lines — two attributing to the base revision — each followed by one
tab-prefixed content line. -/
def testDump : String :=
  "abc12345678901234567890123456789012 author 1234567890 +0000\t1\n" ++
  "\t\tline 1 content\n" ++
  "def45678901234567890123456789012345 author 1234567890 +0000\t2\n" ++
  "\t\tline 2 content\n" ++
  "abc12345678901234567890123456789012 author 1234567890 +0000\t3\n" ++
  "\t\tline 3 content\n"

/-- Environment whose blame backend produces `testDump`. -/
def testDumpEnv : GitEnv :=
  { baseEnv with blame := fun _ => .ok testDump }

/-- Environment whose backend resolves every reference to a 40-character
string that is not hexadecimal. -/
def nonHexEnv : GitEnv :=
  { baseEnv with revParse := fun _ => .ok "zzzzzzzzzzzzzzzzzzzzzzzzzzzzzzzzzzzzzzzz\n" }

/-- Two per-file results with equal evolution percentages. -/
def tiedResults : List (String × Nat × Nat) := [("a", 2, 1), ("b", 2, 1)]

/-- The transposition of `tiedResults`. -/
def tiedResultsRev : List (String × Nat × Nat) := [("b", 2, 1), ("a", 2, 1)]

/-- Environment whose attribute backend flags every file as binary. -/
def binaryEnv : GitEnv :=
  { baseEnv with checkAttr := fun _ => .ok "img.png: binary: set\n" }

/-- Twelve file paths, above the parallel threshold of 10. -/
def files12 : List String :=
  ["f1", "f2", "f3", "f4", "f5", "f6", "f7", "f8", "f9", "f10", "f11", "f12"]

/-- Environment whose pool completes tasks in reverse submission order. -/
def reverseEnv : GitEnv :=
  { baseEnv with completionOrder := fun l => l.reverse }

/-- Environment invoked outside any git repository. -/
def notRepoEnv : GitEnv :=
  { baseEnv with
    showToplevel :=
      GitOutcome.calledProcessError
        "fatal: not a git repository (or any of the parent directories): .git" "exc" }

/-- The message the `except` handlers of `analyze` put into the `error`
field for each exception class. -/
def renderExc : PyExc → String
  | .gitCommandError m => m
  | .invalidCommitError m => m
  | .notAGitRepositoryError m => m
  | .otherError m => "Unexpected error: " ++ m

/-- `analyze`: the core body with every escaping exception converted to
an all-default report carrying the exception's message. -/
def analyze (base_commit : String) (file_breakdown timeline parallel : Bool)
    (exclude_patterns : Option (List String)) (env : GitEnv) : AnalysisResult :=
  match analyzeCore base_commit file_breakdown timeline parallel exclude_patterns env with
  | .ok r => r
  | .error e => error_result (renderExc e)

/-! ## Helper lemmas -/

theorem blameStep_le (prefix7 : String) (acc : Nat × Nat) (line : String)
    (h : acc.2 ≤ acc.1) : (blameStep prefix7 acc line).2 ≤ (blameStep prefix7 acc line).1 := by
  unfold blameStep
  repeat' split
  all_goals simp_all
  all_goals omega

theorem blameCounts_le_aux (prefix7 : String) (lines : List String) :
    ∀ acc : Nat × Nat, acc.2 ≤ acc.1 →
      (lines.foldl (blameStep prefix7) acc).2 ≤ (lines.foldl (blameStep prefix7) acc).1 := by
  induction lines with
  | nil => intro acc h; simpa using h
  | cons l ls ih =>
      intro acc h
      simpa using ih (blameStep prefix7 acc l) (blameStep_le prefix7 acc l h)

theorem blameCounts_le (prefix7 : String) (lines : List String) :
    (blameCounts prefix7 lines).2 ≤ (blameCounts prefix7 lines).1 :=
  blameCounts_le_aux prefix7 lines (0, 0) (Nat.le_refl 0)

theorem pyRound2_intCast_div (k : ℤ) : pyRound2 ((k : ℚ) / 100) = (k : ℚ) / 100 := by
  unfold pyRound2 pyRoundHalfEven
  have h : ((k : ℚ) / 100) * 100 = (k : ℚ) := by field_simp
  rw [h]
  rw [if_neg (by simp [Int.fract_intCast])]
  rw [round_intCast]

theorem pyRound2_complement (ep : ℚ) (h : ∃ k : ℤ, ep = (k : ℚ) / 100) :
    ep + pyRound2 (100 - ep) = 100 := by
  obtain ⟨k, rfl⟩ := h
  have h2 : (100 : ℚ) - (k : ℚ) / 100 = ((10000 - k : ℤ) : ℚ) / 100 := by push_cast; ring
  rw [h2, pyRound2_intCast_div]
  push_cast; ring

theorem resolve_commit_eq (ref : String) (env : GitEnv) :
    resolve_commit ref env =
      match env.revParse ref with
      | .ok s =>
          if (pyStrip s).length = 40 then .ok (pyStrip s)
          else .error (.invalidCommitError ("Invalid commit reference: " ++ ref))
      | .otherError m => .error (.otherError m)
      | _ => .error (.invalidCommitError ("Invalid commit reference: " ++ ref)) := by
  unfold resolve_commit run_git_command
  rcases env.revParse ref with s | ⟨st, ex⟩ | _ | m
  · by_cases hl : (pyStrip s).length = 40
    · simp [hl, PyExc.isGitCommandError]
    · simp [hl, PyExc.isGitCommandError]
  · simp [PyExc.isGitCommandError]
  · simp [PyExc.isGitCommandError]
  · simp [PyExc.isGitCommandError]

theorem append_ne_empty (a b : String) (ha : 0 < a.length) : a ++ b ≠ "" := by
  intro hc
  have hlen := congrArg String.length hc
  rw [String.length_append] at hlen
  have h0 : ("" : String).length = 0 := rfl
  omega

theorem run_git_command_render_ne (c : String) (o : GitOutcome) (e : PyExc)
    (h : run_git_command c o = .error e) : renderExc e ≠ "" := by
  cases o with
  | ok s => simp [run_git_command] at h
  | calledProcessError st ex =>
      simp [run_git_command] at h
      subst h
      apply append_ne_empty
      rw [String.length_append, String.length_append]
      have h20 : ("Git command failed: " : String).length = 20 := rfl
      omega
  | fileNotFound =>
      simp [run_git_command] at h
      subst h
      decide
  | otherError m =>
      simp [run_git_command] at h
      subst h
      apply append_ne_empty
      decide

theorem get_repository_root_render_ne (env : GitEnv) (e : PyExc)
    (h : get_repository_root env = .error e) : renderExc e ≠ "" := by
  unfold get_repository_root at h
  cases ho : run_git_command "git rev-parse --show-toplevel" env.showToplevel with
  | ok s => rw [ho] at h; simp at h
  | error e1 =>
      rw [ho] at h
      simp only [] at h
      by_cases hg : e1.isGitCommandError
      · rw [if_pos hg] at h
        by_cases hn : pyIn "not a git repository" (pyToLower e1.message) = true
        · rw [if_pos hn] at h
          simp at h
          subst h
          decide
        · rw [if_neg hn] at h
          simp at h
          subst h
          exact run_git_command_render_ne _ _ _ ho
      · rw [if_neg hg] at h
        simp at h
        subst h
        exact run_git_command_render_ne _ _ _ ho

theorem resolve_commit_render_ne (ref : String) (env : GitEnv) (e : PyExc)
    (h : resolve_commit ref env = .error e) : renderExc e ≠ "" := by
  rw [resolve_commit_eq] at h
  cases henv : env.revParse ref with
  | ok s =>
      rw [henv] at h
      by_cases hl : (pyStrip s).length = 40
      · simp [hl] at h
      · simp [hl] at h
        subst h
        apply append_ne_empty
        decide
  | calledProcessError st ex =>
      rw [henv] at h
      simp at h
      subst h
      apply append_ne_empty
      decide
  | fileNotFound =>
      rw [henv] at h
      simp at h
      subst h
      apply append_ne_empty
      decide
  | otherError m =>
      rw [henv] at h
      simp at h
      subst h
      apply append_ne_empty
      decide

theorem get_tracked_files_render_ne (env : GitEnv) (excl : Option (List String)) (e : PyExc)
    (h : get_tracked_files env excl = .error e) : renderExc e ≠ "" := by
  unfold get_tracked_files at h
  cases ho : run_git_command "git ls-files" env.lsFiles with
  | ok s => rw [ho] at h; simp at h
  | error e1 =>
      rw [ho] at h
      simp at h
      subst h
      exact run_git_command_render_ne _ _ _ ho

theorem get_commit_timeline_render_ne (env : GitEnv) (base_full : String) (e : PyExc)
    (h : get_commit_timeline env base_full = .error e) : renderExc e ≠ "" := by
  unfold get_commit_timeline at h
  cases ho : run_git_command ("git log " ++ base_full ++ "..HEAD --format=%H|%ai|%s -n 20")
      env.gitLog with
  | ok s => rw [ho] at h; simp at h
  | error e1 =>
      rw [ho] at h
      simp only [] at h
      by_cases hg : e1.isGitCommandError
      · rw [if_pos hg] at h
        simp at h
      · rw [if_neg hg] at h
        simp at h
        subst h
        exact run_git_command_render_ne _ _ _ ho

theorem analyzeCore_error_render_ne (base : String) (fb tl par : Bool)
    (excl : Option (List String)) (env : GitEnv) (e : PyExc)
    (h : analyzeCore base fb tl par excl env = .error e) : renderExc e ≠ "" := by
  unfold analyzeCore at h
  cases h1 : get_repository_root env with
  | error e1 =>
      rw [h1] at h
      simp at h
      subst h
      exact get_repository_root_render_ne _ _ h1
  | ok root =>
      rw [h1] at h
      cases h2 : resolve_commit base env with
      | error e2 =>
          rw [h2] at h
          simp at h
          subst h
          exact resolve_commit_render_ne _ _ _ h2
      | ok bf =>
          rw [h2] at h
          cases h3 : get_tracked_files env excl with
          | error e3 =>
              rw [h3] at h
              simp at h
              subst h
              exact get_tracked_files_render_ne _ _ _ h3
          | ok files =>
              rw [h3] at h
              simp only [] at h
              by_cases hf : files = []
              · simp [hf] at h
              · rw [if_neg hf] at h
                cases tl with
                | false => simp at h
                | true =>
                    cases h4 : get_commit_timeline env bf with
                    | error e4 =>
                        simp [h4] at h
                        subst h
                        exact get_commit_timeline_render_ne _ _ _ h4
                    | ok t => simp [h4] at h

theorem tied_breakdown : (build_result tiedResults "base" "repo" 2 true none).file_breakdown =
    some [fileStatOf ("a", 2, 1), fileStatOf ("b", 2, 1)] := by
  simp [build_result, fileBreakdownOf, tiedResults, fileStatOf, List.insertionSort,
    List.orderedInsert]

theorem tied_breakdown_rev :
    (build_result tiedResultsRev "base" "repo" 2 true none).file_breakdown =
      some [fileStatOf ("b", 2, 1), fileStatOf ("a", 2, 1)] := by
  simp [build_result, fileBreakdownOf, tiedResultsRev, fileStatOf, List.insertionSort,
    List.orderedInsert]

/-! ## Claim theorems -/

/-- C1 (code bug): on the blame dump used by the repository's own unit
test — three header lines, two attributing to the base's 7-character
prefix, each followed by one tab content line — the analyzer returns
`totalLines = 6` and `baseSurvivingLines = 2`, because the loop at
analyzer.py:250/258 increments `total_lines` on header lines as well;
the dump has only 3 tab content lines, so the claimed `totalLines = 3`
(with only content lines counted) does not hold of the code. -/
theorem c1_total_lines_counts_header_lines :
    analyze_file_blame_optimized "test.py" "abc12345678901234567890123456789012" testDumpEnv =
      ("test.py", 6, 2) ∧
    ((pySplitlines testDump).filter (fun l => pyStartsWith l "\t")).length = 3 := by
  constructor
  · decide
  · decide

/-- C2, counterexample: a backend that succeeds with a 40-character
non-hexadecimal identifier is accepted by `resolve_commit`, although the
claim says resolution must fail whenever the identifier is not exactly 40
hex characters. -/
theorem c2_counterexample :
    nonHexEnv.revParse "v1.0" = .ok "zzzzzzzzzzzzzzzzzzzzzzzzzzzzzzzzzzzzzzzz\n" ∧
    resolve_commit "v1.0" nonHexEnv = .ok "zzzzzzzzzzzzzzzzzzzzzzzzzzzzzzzzzzzzzzzz" ∧
    specIsHex40 "zzzzzzzzzzzzzzzzzzzzzzzzzzzzzzzzzzzzzzzz" = false := by
  refine ⟨rfl, ?_, by decide⟩
  decide

/-- C2 (amended): revision resolution fails exactly when the backend call
does not return output or the stripped output's length differs from 40 —
hexadecimality is not checked; backend-reported failures and wrong-length
outputs both surface as the invalid-commit error, and on success the
result is the stripped backend output. -/
theorem c2_resolution_checks_length_only (ref : String) (env : GitEnv) :
    ((∃ e, resolve_commit ref env = .error e) ↔
      ((∀ s, env.revParse ref ≠ .ok s) ∨
        (∃ s, env.revParse ref = .ok s ∧ (pyStrip s).length ≠ 40))) ∧
    (∀ s, env.revParse ref = .ok s →
      ((pyStrip s).length = 40 → resolve_commit ref env = .ok (pyStrip s)) ∧
      ((pyStrip s).length ≠ 40 → resolve_commit ref env =
        .error (.invalidCommitError ("Invalid commit reference: " ++ ref)))) ∧
    (∀ st ex, env.revParse ref = .calledProcessError st ex → resolve_commit ref env =
      .error (.invalidCommitError ("Invalid commit reference: " ++ ref))) ∧
    (env.revParse ref = .fileNotFound → resolve_commit ref env =
      .error (.invalidCommitError ("Invalid commit reference: " ++ ref))) := by
  rw [resolve_commit_eq]
  rcases hrp : env.revParse ref with s | ⟨st, ex⟩ | _ | m
  · by_cases hl : (pyStrip s).length = 40 <;> simp [hrp, hl]
  · simp [hrp]
  · simp [hrp]
  · simp [hrp]

/-- C2, witness: a backend success of 40 characters (after stripping)
resolves to the stripped output. -/
theorem c2_resolution_checks_length_only_witness :
    resolve_commit "HEAD" baseEnv =
      .ok (pyStrip "aaaaaaaaaaaaaaaaaaaaaaaaaaaaaaaaaaaaaaaa\n") :=
  ((c2_resolution_checks_length_only "HEAD" baseEnv).2.1 _ rfl).1 (by decide)

/-- C3, counterexample: permuting two per-file results with tied
evolution percentages changes the sorted breakdown (Python's sort is
stable, so ties follow input order), hence the reports are not
identical. -/
theorem c3_counterexample :
    tiedResults.Perm tiedResultsRev ∧
    build_result tiedResults "base" "repo" 2 true none ≠
      build_result tiedResultsRev "base" "repo" 2 true none := by
  constructor
  · exact List.Perm.swap _ _ _
  · intro h
    have h2 := congrArg AnalysisResult.file_breakdown h
    rw [tied_breakdown, tied_breakdown_rev] at h2
    simp [fileStatOf] at h2

/-- C3 (amended): permuting the per-file results yields a report identical
in every field except the breakdown; the breakdown holds the same entries
(as a multiset) whenever no truncation occurs (at most 20 files with
positive totals) — only the relative order of tied percentages, and the
selection at the top-20 cut, can depend on input order. -/
theorem c3_aggregation_perm_invariant (l1 l2 : List (String × Nat × Nat)) (h : l1.Perm l2)
    (base_full repoName : String) (numFiles : Nat) (fb : Bool)
    (tld : Option (List TimelineEntry)) :
    (build_result l1 base_full repoName numFiles fb tld =
      { build_result l2 base_full repoName numFiles fb tld with
        file_breakdown := (build_result l1 base_full repoName numFiles fb tld).file_breakdown }) ∧
    ((l1.filter (fun x => 0 < x.2.1)).length ≤ 20 →
      ((fileBreakdownOf l1 : Multiset FileStat) = (fileBreakdownOf l2 : Multiset FileStat))) := by
  have h1 : (l1.map (fun x => x.2.1)).sum = (l2.map (fun x => x.2.1)).sum := (h.map _).sum_eq
  have h2 : (l1.map (fun x => x.2.2)).sum = (l2.map (fun x => x.2.2)).sum := (h.map _).sum_eq
  constructor
  · unfold build_result
    rw [h1, h2]
  · intro hlen
    have hperm : ((l1.filter (fun x => 0 < x.2.1)).map fileStatOf).Perm
        ((l2.filter (fun x => 0 < x.2.1)).map fileStatOf) := (h.filter _).map _
    have hl1 : (List.insertionSort (fun a b : FileStat => b.evolution_percent ≤ a.evolution_percent)
        ((l1.filter (fun x => 0 < x.2.1)).map fileStatOf)).length ≤ 20 := by
      rw [(List.perm_insertionSort _ _).length_eq, List.length_map]
      simpa using hlen
    have hl2 : (List.insertionSort (fun a b : FileStat => b.evolution_percent ≤ a.evolution_percent)
        ((l2.filter (fun x => 0 < x.2.1)).map fileStatOf)).length ≤ 20 := by
      rw [(List.perm_insertionSort _ _).length_eq, List.length_map,
        ← (h.filter (fun x => decide (0 < x.2.1))).length_eq]
      simpa using hlen
    unfold fileBreakdownOf
    rw [List.take_of_length_le hl1, List.take_of_length_le hl2]
    exact Multiset.coe_eq_coe.mpr
      (((List.perm_insertionSort _ _).trans hperm).trans (List.perm_insertionSort _ _).symm)

/-- C3, witness: a transposed pair of results with distinct totals yields
the same breakdown multiset. -/
theorem c3_aggregation_perm_invariant_witness :
    ((fileBreakdownOf [("a", 3, 1), ("b", 5, 2)] : Multiset FileStat) =
      (fileBreakdownOf [("b", 5, 2), ("a", 3, 1)] : Multiset FileStat)) :=
  (c3_aggregation_perm_invariant [("a", 3, 1), ("b", 5, 2)] [("b", 5, 2), ("a", 3, 1)]
    (List.Perm.swap _ _ _) "base" "repo" 2 true none).2 (by decide)

/-- C4: every `FileAttributionResult` produced by the analyzer satisfies
`baseSurvivingLines ≤ totalLines` (both are naturals, so `0 ≤` holds by
type), for every file path, base revision and environment. -/
theorem c4_surviving_le_total (file_path base_commit : String) (env : GitEnv) :
    (analyze_file_blame_optimized file_path base_commit env).2.2 ≤
      (analyze_file_blame_optimized file_path base_commit env).2.1 := by
  unfold analyze_file_blame_optimized
  repeat' split
  all_goals simp
  exact blameCounts_le _ _

/-- C5: the per-file attribution never raises (it is a total function into
plain tuples in this embedding) and degrades to `(path, 0, 0)` whenever
the file is flagged binary, the binary check itself raises, or the blame
backend call does not return output (unmerged, deleted, unreadable,
decode failure). -/
theorem c5_failure_contained (file_path base_commit : String) (env : GitEnv)
    (h : is_binary_file file_path env = .ok true ∨
         (∃ e, is_binary_file file_path env = .error e) ∨
         (∀ s, env.blame file_path ≠ .ok s)) :
    analyze_file_blame_optimized file_path base_commit env = (file_path, 0, 0) := by
  unfold analyze_file_blame_optimized
  rcases h with h | ⟨e, h⟩ | h
  · rw [h]
  · rw [h]
  · cases hb : is_binary_file file_path env with
    | error e => rfl
    | ok b =>
      cases b with
      | true => rfl
      | false =>
        rcases ho : env.blame file_path with s | ⟨st, ex⟩ | _ | m
        · exact absurd ho (h s)
        · rfl
        · rfl
        · rfl

/-- C5, witness: a binary-flagged file degrades to `(path, 0, 0)`. -/
theorem c5_failure_contained_witness :
    analyze_file_blame_optimized "img.png" "abc" binaryEnv = ("img.png", 0, 0) :=
  c5_failure_contained "img.png" "abc" binaryEnv (Or.inl (by decide))

/-- C6: the report reduction satisfies the claimed formulas — totals are
the sums of the per-file tuples, evolved lines are their difference, the
evolution percentage is `round(100 * evolved / total, 2)` for positive
totals and `0.0` otherwise, the survival percentage is
`round(100 - evolutionPercent, 2)` — and the two percentages sum to
exactly 100 (hence within the claimed ±0.01). -/
theorem c6_reduction_formulas (results : List (String × Nat × Nat))
    (base_full repoName : String) (numFiles : Nat) (fb : Bool)
    (tld : Option (List TimelineEntry)) (r : AnalysisResult)
    (hr : r = build_result results base_full repoName numFiles fb tld) :
    r.total_lines = (results.map (fun x => x.2.1)).sum ∧
    r.base_lines_surviving = (results.map (fun x => x.2.2)).sum ∧
    r.manual_or_modified_lines = (r.total_lines : ℤ) - (r.base_lines_surviving : ℤ) ∧
    r.evolution_percent =
      (if 0 < r.total_lines then
        pyRound2 ((100 * (r.manual_or_modified_lines : ℚ)) / (r.total_lines : ℚ))
      else 0) ∧
    r.survival_percent = pyRound2 (100 - r.evolution_percent) ∧
    r.evolution_percent + r.survival_percent = 100 := by
  subst hr
  unfold build_result
  refine ⟨rfl, rfl, rfl, ?_, rfl, ?_⟩
  · by_cases h : 0 < (results.map (fun x => x.2.1)).sum
    · simp only [if_pos h]
      congr 1
      ring
    · simp only [if_neg h]
  · apply pyRound2_complement
    by_cases h : 0 < (results.map (fun x => x.2.1)).sum
    · simp only [if_pos h]
      exact ⟨_, rfl⟩
    · simp only [if_neg h]
      exact ⟨0, by norm_num⟩

/-- C6, witness: at one concrete per-file result the two percentages sum
to 100. -/
theorem c6_reduction_formulas_witness :
    (build_result [("a", 3, 1)] "b" "r" 1 true none).evolution_percent +
      (build_result [("a", 3, 1)] "b" "r" 1 true none).survival_percent = 100 :=
  (c6_reduction_formulas [("a", 3, 1)] "b" "r" 1 true none _ rfl).2.2.2.2.2

/-- C7, counterexample: with two files tied at the same percentage the
requested breakdown is not *strictly* descending — the tied entries
violate a strict comparison, refuting the claim's strictness. -/
theorem c7_counterexample :
    (build_result tiedResults "base" "repo" 2 true none).file_breakdown =
      some [fileStatOf ("a", 2, 1), fileStatOf ("b", 2, 1)] ∧
    ¬ [fileStatOf ("a", 2, 1), fileStatOf ("b", 2, 1)].Pairwise
      (fun a b => b.evolution_percent < a.evolution_percent) := by
  refine ⟨tied_breakdown, ?_⟩
  intro hp
  rcases List.pairwise_cons.mp hp with ⟨h1, _⟩
  have h2 := h1 _ (List.mem_singleton_self _)
  simp [fileStatOf] at h2

/-- C7 (amended): the requested breakdown holds at most 20 entries,
sorted in non-increasing (weakly descending) order of the per-file
evolution percentage; every entry stems from a file with positive
`totalLines` and carries the claimed percentage formula, zero-total files
never appear, and when at most 20 files have positive totals every such
file appears. -/
theorem c7_breakdown_shape (results : List (String × Nat × Nat))
    (base_full repoName : String) (numFiles : Nat) (tld : Option (List TimelineEntry)) :
    (build_result results base_full repoName numFiles true tld).file_breakdown =
      some (fileBreakdownOf results) ∧
    (fileBreakdownOf results).length ≤ 20 ∧
    (fileBreakdownOf results).Pairwise
      (fun a b => b.evolution_percent ≤ a.evolution_percent) ∧
    (∀ e ∈ fileBreakdownOf results, ∃ x ∈ results, 0 < x.2.1 ∧ e = fileStatOf x) ∧
    (∀ e ∈ fileBreakdownOf results, 0 < e.total_lines) ∧
    ((results.filter (fun x => 0 < x.2.1)).length ≤ 20 →
      ∀ x ∈ results, 0 < x.2.1 → fileStatOf x ∈ fileBreakdownOf results) := by
  haveI hTot : IsTotal FileStat (fun a b => b.evolution_percent ≤ a.evolution_percent) :=
    ⟨fun a b => le_total b.evolution_percent a.evolution_percent⟩
  haveI hTr : IsTrans FileStat (fun a b => b.evolution_percent ≤ a.evolution_percent) :=
    ⟨fun _ _ _ hab hbc => le_trans hbc hab⟩
  have hmem : ∀ e ∈ fileBreakdownOf results, ∃ x ∈ results, 0 < x.2.1 ∧ e = fileStatOf x := by
    intro e he
    have hin := List.mem_of_mem_take he
    have hin2 := (List.perm_insertionSort
      (fun a b : FileStat => b.evolution_percent ≤ a.evolution_percent) _).subset hin
    obtain ⟨x, hx, rfl⟩ := List.mem_map.mp hin2
    have hf := List.mem_filter.mp hx
    exact ⟨x, hf.1, by simpa using hf.2, rfl⟩
  refine ⟨rfl, ?_, ?_, hmem, ?_, ?_⟩
  · simp [fileBreakdownOf]
  · exact (List.sorted_insertionSort _ _).sublist (List.take_sublist _ _)
  · intro e he
    obtain ⟨x, _, hpos, rfl⟩ := hmem e he
    simpa [fileStatOf] using hpos
  · intro hlen x hx hpos
    have hlen2 : (List.insertionSort
        (fun a b : FileStat => b.evolution_percent ≤ a.evolution_percent)
        ((results.filter (fun x => 0 < x.2.1)).map fileStatOf)).length ≤ 20 := by
      rw [(List.perm_insertionSort _ _).length_eq, List.length_map]
      simpa using hlen
    unfold fileBreakdownOf
    rw [List.take_of_length_le hlen2]
    exact (List.perm_insertionSort _ _).mem_iff.mpr
      (List.mem_map_of_mem _ (List.mem_filter.mpr ⟨hx, by simpa using hpos⟩))

/-- C7, witness: a positive-total file's entry appears in the breakdown. -/
theorem c7_breakdown_shape_witness :
    fileStatOf ("a", 3, 1) ∈ fileBreakdownOf [("a", 3, 1)] :=
  (c7_breakdown_shape [("a", 3, 1)] "b" "r" 1 none).2.2.2.2.2 (by decide) ("a", 3, 1)
    (by decide) (by decide)

/-- C8: the parallel path is taken exactly when parallelism is enabled
and more than 10 files were enumerated, the sequential comprehension
otherwise; and for any completion order of the pool that is a permutation
of the file list, the parallel results equal the sequential results as a
multiset. -/
theorem c8_parallel_matches_sequential (files : List String) (base_full : String)
    (env : GitEnv) (h : (env.completionOrder files).Perm files) :
    (10 < files.length → scheduledResults files base_full env true =
      analyze_parallel files base_full env) ∧
    (∀ par : Bool, (par = false ∨ files.length ≤ 10) →
      scheduledResults files base_full env par =
        files.map (fun f => analyze_file_blame_optimized f base_full env)) ∧
    (∀ par : Bool,
      ((scheduledResults files base_full env par : List (String × Nat × Nat)) :
          Multiset (String × Nat × Nat)) =
        ((files.map (fun f => analyze_file_blame_optimized f base_full env) :
          List (String × Nat × Nat)) : Multiset (String × Nat × Nat))) := by
  refine ⟨?_, ?_, ?_⟩
  · intro h10
    unfold scheduledResults
    rw [if_pos (by simpa using h10)]
  · intro par hpar
    unfold scheduledResults
    rcases hpar with rfl | hle
    · rfl
    · rw [if_neg (by simp [Nat.not_lt.mpr hle])]
  · intro par
    unfold scheduledResults
    split
    · exact Multiset.coe_eq_coe.mpr (List.Perm.map _ h)
    · rfl

/-- C8, witness: twelve files with a reversed completion order take the
parallel path. -/
theorem c8_parallel_matches_sequential_witness :
    scheduledResults files12 "basefull" reverseEnv true =
      analyze_parallel files12 "basefull" reverseEnv :=
  (c8_parallel_matches_sequential files12 "basefull" reverseEnv
    (List.reverse_perm files12)).1 (by decide)

/-- C9: on a successful run the `files_analyzed` field equals the number
of enumerated tracked files after exclusion filtering — independently of
the blame outcomes and of the pool's completion order (which may even
drop results). -/
theorem c9_files_analyzed_counts_enumerated (base : String) (fb par : Bool)
    (excl : Option (List String)) (env : GitEnv) (rootOut rpOut lsOut : String)
    (h1 : env.showToplevel = .ok rootOut)
    (h2 : env.revParse base = .ok rpOut)
    (h3 : (pyStrip rpOut).length = 40)
    (h4 : env.lsFiles = .ok lsOut)
    (h5 : filterTracked lsOut excl env.fnmatch ≠ []) :
    (analyze base fb false par excl env).error = none ∧
    (analyze base fb false par excl env).files_analyzed =
      (filterTracked lsOut excl env.fnmatch).length := by
  have hroot : get_repository_root env = .ok (pyStrip rootOut) := by
    simp [get_repository_root, run_git_command, h1]
  have hres : resolve_commit base env = .ok (pyStrip rpOut) := by
    rw [resolve_commit_eq, h2]
    simp [h3]
  have htr : get_tracked_files env excl = .ok (filterTracked lsOut excl env.fnmatch) := by
    simp [get_tracked_files, run_git_command, h4]
  unfold analyze analyzeCore
  rw [hroot, hres, htr]
  simp [h5, build_result]

/-- C9, witness: two tracked files give `files_analyzed = 2` with no
error. -/
theorem c9_files_analyzed_counts_enumerated_witness :
    (analyze "HEAD" false false false none baseEnv).error = none ∧
    (analyze "HEAD" false false false none baseEnv).files_analyzed =
      (filterTracked "a.py\nb.py\n" none baseEnv.fnmatch).length :=
  c9_files_analyzed_counts_enumerated "HEAD" false false none baseEnv "/repo\n"
    "aaaaaaaaaaaaaaaaaaaaaaaaaaaaaaaaaaaaaaaa\n" "a.py\nb.py\n" rfl rfl (by decide) rfl
    (by decide)

/-- C10: whenever the core body of `analyze` raises — not a repository,
invalid revision, backend failure, or any unexpected exception — the
top-level `analyze` returns (rather than raises) the all-default report
whose only populated field is a non-empty error message. -/
theorem c10_fatal_errors_default_report (base : String) (fb tl par : Bool)
    (excl : Option (List String)) (env : GitEnv) (e : PyExc)
    (h : analyzeCore base fb tl par excl env = .error e) :
    analyze base fb tl par excl env = error_result (renderExc e) ∧ renderExc e ≠ "" := by
  constructor
  · unfold analyze
    rw [h]
  · exact analyzeCore_error_render_ne base fb tl par excl env e h

/-- C10, witness: outside a git repository the report is the all-default
one carrying the not-a-repository message. -/
theorem c10_fatal_errors_default_report_witness :
    analyze "HEAD" false false true none notRepoEnv =
      error_result (renderExc (.notAGitRepositoryError
        ("Current directory is not a git repository. "
          ++ "Please run this command from within a git repository."))) ∧
    renderExc (.notAGitRepositoryError
      ("Current directory is not a git repository. "
        ++ "Please run this command from within a git repository.")) ≠ "" :=
  c10_fatal_errors_default_report "HEAD" false false true none notRepoEnv
    (.notAGitRepositoryError ("Current directory is not a git repository. "
      ++ "Please run this command from within a git repository.")) (by decide)

end GitEvolve
